import Mathlib

/-!
Verification of the immutable AST composition core of a SQL query builder:
src/query-builder/join-builder.ts and src/query-builder/sub-query-builder.ts.

Builders are immutable wrappers around a frozen properties record.  Each
public method parses its arguments into a node fragment, asks the current
node for a clone extended with that fragment, and wraps the result in a new
builder.  Fallible parsers are embedded as functions into Except.
-/

namespace Kysely

instance {e a : Type} [DecidableEq e] [DecidableEq a] : DecidableEq (Except e a) := fun x y =>
  match x, y with
  | Except.ok u, Except.ok v =>
    if h : u = v then Decidable.isTrue (congrArg Except.ok h)
    else Decidable.isFalse (fun c => h (Except.ok.inj c))
  | Except.error u, Except.error v =>
    if h : u = v then Decidable.isTrue (congrArg Except.error h)
    else Decidable.isFalse (fun c => h (Except.error.inj c))
  | Except.ok _, Except.error _ => Decidable.isFalse (fun c => Except.noConfusion c)
  | Except.error _, Except.ok _ => Decidable.isFalse (fun c => Except.noConfusion c)

/-- Error taxonomy of the parser collaborators (spec section 7): propagated
unchanged by the builder layer, never swallowed. -/
inductive ParseError where
  | invalidOperator (op : String)
  | invalidOperand (description : String)
  | invalidTableExpression (description : String)
deriving DecidableEq, Repr

/-- An operand of a comparison: either a column reference or a literal value.
This is the shape distinction parseReferentialComparison validates. -/
inductive Operand where
  | col (name : String)
  | lit (value : String)
deriving DecidableEq, Repr

/-- One fragment of a join's on-clause: comparisons, raw SQL fragments,
existence predicates, and AND/OR composition nodes. -/
inductive OnNode where
  | cmp (lhs : Operand) (op : String) (rhs : Operand)
  | raw (sql : String)
  | exist (subquery : String)
  | notExist (subquery : String)
  | and (left right : OnNode)
  | or (left right : OnNode)
deriving DecidableEq, Repr

/-- A join node: join kind, table reference, and an optional on-clause
(operation-node/join-node.ts, consumed by the builder as an external type). -/
structure JoinNode where
  joinType : String
  table : String
  «on» : Option OnNode
deriving DecidableEq, Repr

/-- Modelled from the spec: operation-node/join-node.ts is not under src.
Per spec section 6, cloneWithOn is pure and conjuncts the fragment onto the
whole existing clause (the clause becomes the fragment when none exists). -/
def JoinNode.cloneWithOn (node : JoinNode) (fragment : OnNode) : JoinNode :=
  { node with
    «on» := some (match node.on with
      | none => fragment
      | some clause => OnNode.and clause fragment) }

/-- Modelled from the spec: operation-node/join-node.ts is not under src.
Per spec section 6, cloneWithOrOn is pure and disjuncts the fragment onto
the whole existing clause. -/
def JoinNode.cloneWithOrOn (node : JoinNode) (fragment : OnNode) : JoinNode :=
  { node with
    «on» := some (match node.on with
      | none => fragment
      | some clause => OnNode.or clause fragment) }

/-- Modelled from the spec: parser/binary-operation-parser.ts is not under
src.  The supported comparison-operator vocabulary (equality, inequality,
ordering, set-membership, pattern-match, null-checks). -/
def COMPARISON_OPERATORS : List String :=
  ["=", "!=", "<>", "<", "<=", ">", ">=", "in", "not in", "like", "not like",
   "ilike", "not ilike", "is", "is not"]

/-- Modelled from the spec: parser/binary-operation-parser.ts is not under
src.  parseOn turns a comparison into a predicate fragment; an operator
outside the supported vocabulary fails with InvalidOperator before any node
is constructed. -/
def parseOn (lhs : Operand) (op : String) (rhs : Operand) :
    Except ParseError OnNode :=
  if op ∈ COMPARISON_OPERATORS then
    Except.ok (OnNode.cmp lhs op rhs)
  else
    Except.error (ParseError.invalidOperator op)

/-- Modelled from the spec: parser/binary-operation-parser.ts is not under
src.  parseReferentialComparison requires both operands to be column
references; a non-column operand fails with InvalidOperand, an unsupported
operator with InvalidOperator. -/
def parseReferentialComparison (lhs : Operand) (op : String) (rhs : Operand) :
    Except ParseError OnNode :=
  match lhs, rhs with
  | Operand.col _, Operand.col _ =>
    if op ∈ COMPARISON_OPERATORS then
      Except.ok (OnNode.cmp lhs op rhs)
    else
      Except.error (ParseError.invalidOperator op)
  | _, _ => Except.error (ParseError.invalidOperand "operand is not a column reference")

/-- Modelled from the spec: parser/unary-operation-parser.ts is not under
src.  parseExists wraps an existence sub-select predicate. -/
def parseExists (expr : String) : OnNode :=
  OnNode.exist expr

/-- Modelled from the spec: parser/unary-operation-parser.ts is not under
src.  parseNotExists wraps a non-existence sub-select predicate. -/
def parseNotExists (expr : String) : OnNode :=
  OnNode.notExist expr

/-- Modelled from the spec: operation-node/raw-node.ts is not under src.
RawNode.createWithSql builds a raw SQL fragment node; raw nodes are embedded
into the on-fragment type here. -/
def RawNode.createWithSql (sql : String) : OnNode :=
  OnNode.raw sql

/-- The frozen properties record of a JoinBuilder: exactly one field. -/
structure JoinBuilderProps where
  joinNode : JoinNode
deriving DecidableEq, Repr

/-- An immutable wrapper around a join node (join-builder.ts line 22). -/
structure JoinBuilder where
  props : JoinBuilderProps
deriving DecidableEq, Repr

/-- From join-builder.ts lines 46 to 51: parse a comparison and conjunct it onto
the on clause via cloneWithOn, wrapping the result in a new builder. -/
def JoinBuilder.«on» (b : JoinBuilder) (lhs : Operand) (op : String)
    (rhs : Operand) : Except ParseError JoinBuilder :=
  (parseOn lhs op rhs).map fun fragment =>
    JoinBuilder.mk
      { b.props with joinNode := JoinNode.cloneWithOn b.props.joinNode fragment }

/-- From join-builder.ts lines 75 to 80: deprecated orOn, same parsing as on but
extends the node via cloneWithOrOn. -/
def JoinBuilder.orOn (b : JoinBuilder) (lhs : Operand) (op : String)
    (rhs : Operand) : Except ParseError JoinBuilder :=
  (parseOn lhs op rhs).map fun fragment =>
    JoinBuilder.mk
      { b.props with joinNode := JoinNode.cloneWithOrOn b.props.joinNode fragment }

/-- From join-builder.ts lines 88 to 100: both operands are column references,
parsed by parseReferentialComparison, conjuncted via cloneWithOn. -/
def JoinBuilder.onRef (b : JoinBuilder) (lhs : Operand) (op : String)
    (rhs : Operand) : Except ParseError JoinBuilder :=
  (parseReferentialComparison lhs op rhs).map fun fragment =>
    JoinBuilder.mk
      { b.props with joinNode := JoinNode.cloneWithOn b.props.joinNode fragment }

/-- From join-builder.ts lines 105 to 117: deprecated orOnRef, same parsing as
onRef but extends the node via cloneWithOrOn. -/
def JoinBuilder.orOnRef (b : JoinBuilder) (lhs : Operand) (op : String)
    (rhs : Operand) : Except ParseError JoinBuilder :=
  (parseReferentialComparison lhs op rhs).map fun fragment =>
    JoinBuilder.mk
      { b.props with joinNode := JoinNode.cloneWithOrOn b.props.joinNode fragment }

/-- From join-builder.ts lines 122 to 127: deprecated onExists, conjuncts an
existence predicate via cloneWithOn. -/
def JoinBuilder.onExists (b : JoinBuilder) (arg : String) : JoinBuilder :=
  JoinBuilder.mk
    { b.props with joinNode := JoinNode.cloneWithOn b.props.joinNode (parseExists arg) }

/-- From join-builder.ts lines 132 to 137: deprecated onNotExists, conjuncts a
non-existence predicate via cloneWithOn. -/
def JoinBuilder.onNotExists (b : JoinBuilder) (arg : String) : JoinBuilder :=
  JoinBuilder.mk
    { b.props with joinNode := JoinNode.cloneWithOn b.props.joinNode (parseNotExists arg) }

/-- From join-builder.ts lines 142 to 147: deprecated orOnExists, disjuncts an
existence predicate via cloneWithOrOn. -/
def JoinBuilder.orOnExists (b : JoinBuilder) (arg : String) : JoinBuilder :=
  JoinBuilder.mk
    { b.props with joinNode := JoinNode.cloneWithOrOn b.props.joinNode (parseExists arg) }

/-- From join-builder.ts lines 152 to 160: deprecated orOnNotExists, disjuncts a
non-existence predicate via cloneWithOrOn. -/
def JoinBuilder.orOnNotExists (b : JoinBuilder) (arg : String) : JoinBuilder :=
  JoinBuilder.mk
    { b.props with joinNode := JoinNode.cloneWithOrOn b.props.joinNode (parseNotExists arg) }

/-- From join-builder.ts lines 165 to 173: onTrue conjuncts a raw literal true
predicate via cloneWithOn. -/
def JoinBuilder.onTrue (b : JoinBuilder) : JoinBuilder :=
  JoinBuilder.mk
    { b.props with
      joinNode := JoinNode.cloneWithOn b.props.joinNode (RawNode.createWithSql "true") }

/-- From join-builder.ts lines 183 to 185: pure accessor returning the current
join node; the sole hand-off point to the external compiler. -/
def JoinBuilder.toOperationNode (b : JoinBuilder) : JoinNode :=
  b.props.joinNode

/-- Modelled from the spec: plugin/with-schema/with-schema-plugin.ts is not
under src.  A plugin installing a schema-qualification transformation. -/
structure WithSchemaPlugin where
  schema : String
deriving DecidableEq, Repr

/-- A plugin of the executor's transformation chain; only the schema plugin
is ever installed by this core. -/
inductive KyselyPlugin where
  | withSchemaPlugin (plugin : WithSchemaPlugin)
deriving DecidableEq, Repr

/-- Modelled from the spec: query-executor/noop-query-executor.ts is not
under src.  A no-op executor carrying a transformation chain of plugins;
subqueries are never directly executed. -/
structure NoopQueryExecutor where
  plugins : List KyselyPlugin
deriving DecidableEq, Repr

/-- Modelled from the spec: executor sources are not under src.  Per spec
section 6 the executor transformation chain is immutable and
withPluginAtFront installs a plugin at the front of the chain, returning a
new executor. -/
def NoopQueryExecutor.withPluginAtFront (e : NoopQueryExecutor)
    (p : KyselyPlugin) : NoopQueryExecutor :=
  { plugins := p :: e.plugins }

/-- Modelled from the spec: dialect/dialect-adapter.ts is not under src.
The dialect adapter carries dialect-specific configuration consumed by the
parse context; the concrete fields are irrelevant to this core, which only
ever passes the adapter along. -/
structure DialectAdapter where
  supportsTransactionalDdl : Bool
deriving DecidableEq, Repr

/-- Modelled from the spec: parser/parse-context.ts is not under src.  A
parse context carries the dialect-adapter-derived configuration needed by
parser functions. -/
structure ParseContext where
  adapter : DialectAdapter
deriving DecidableEq, Repr

/-- Modelled from the spec: parser/parse-context.ts is not under src.
createParseContext derives a fresh parse context from an adapter. -/
def createParseContext (adapter : DialectAdapter) : ParseContext :=
  { adapter := adapter }

/-- A caller-supplied table expression value: a named table, an aliased
table, a raw fragment, or a value matching no recognized shape. -/
inductive TableValue where
  | table (name : String)
  | aliased (name aliasName : String)
  | rawFragment (sql : String)
  | unrecognized (description : String)
deriving DecidableEq, Repr

/-- The argument of subQuery: one table expression or a list of them
(sub-query-builder.ts lines 63 to 69). -/
inductive TableArg where
  | one (value : TableValue)
  | many (values : List TableValue)
deriving DecidableEq, Repr

/-- A canonical parsed table-expression node. -/
inductive TableExpressionNode where
  | table (name : String)
  | aliased (name aliasName : String)
  | raw (sql : String)
deriving DecidableEq, Repr

/-- Modelled from the spec: parser/table-parser.ts is not under src.  A
single table value parses to a canonical node; a value matching neither a
named table, an aliased table, nor a raw fragment fails with
InvalidTableExpression. -/
def parseTableValue (value : TableValue) :
    Except ParseError TableExpressionNode :=
  match value with
  | TableValue.table name => Except.ok (TableExpressionNode.table name)
  | TableValue.aliased name aliasName =>
    Except.ok (TableExpressionNode.aliased name aliasName)
  | TableValue.rawFragment sql => Except.ok (TableExpressionNode.raw sql)
  | TableValue.unrecognized d =>
    Except.error (ParseError.invalidTableExpression d)

/-- Modelled from the spec: parser/table-parser.ts is not under src.
parseTableExpressionOrList parses one table expression or a list of them
under a parse context, propagating the first failure unchanged. -/
def parseTableExpressionOrList (ctx : ParseContext) (table : TableArg) :
    Except ParseError (List TableExpressionNode) :=
  match ctx, table with
  | _, TableArg.one value => (parseTableValue value).map fun node => [node]
  | _, TableArg.many values => values.mapM parseTableValue

/-- Modelled from the spec: operation-node/select-query-node.ts is not under
src.  SelectQueryNode.create builds a select-query node whose from clause is
the given table expressions. -/
structure SelectQueryNode where
  fromItems : List TableExpressionNode
deriving DecidableEq, Repr

/-- Modelled from the spec: util/query-id.ts is not under src.  The spec
requires createQueryId to return a globally unique identifier per call with
no reuse; the global source of fresh identifiers is modelled as a counter
state threaded explicitly through every call. -/
def createQueryId (state : Nat) : Nat × Nat :=
  (state, state + 1)

/-- The frozen properties record of a SubQueryBuilder
(sub-query-builder.ts lines 99 to 102): a no-op executor and the dialect
adapter. -/
structure SubQueryBuilderProps where
  executor : NoopQueryExecutor
  adapter : DialectAdapter
deriving DecidableEq, Repr

/-- An immutable wrapper around an executor/adapter pair
(sub-query-builder.ts line 15). -/
structure SubQueryBuilder where
  props : SubQueryBuilderProps
deriving DecidableEq, Repr

/-- From sub-query-builder.ts lines 94 to 96: the private parseContext getter,
computed on demand from the current adapter, never cached. -/
def SubQueryBuilder.parseContext (s : SubQueryBuilder) : ParseContext :=
  createParseContext s.props.adapter

/-- The query builder returned by subQuery: a fresh query identifier, the
enclosing scope's executor and adapter, and a select-query node
(query-builder.ts is external; only the fields seeded by subQuery are
modelled). -/
structure QueryBuilder where
  queryId : Nat
  executor : NoopQueryExecutor
  adapter : DialectAdapter
  queryNode : SelectQueryNode
deriving DecidableEq, Repr

/-- From sub-query-builder.ts lines 71 to 80: subQuery builds a new QueryBuilder
with a fresh query identifier, the builder's own executor and adapter, and a
select-query node over the parsed table expressions.  The identifier state
is threaded explicitly, mirroring the global uniqueness contract of
createQueryId. -/
def SubQueryBuilder.subQuery (s : SubQueryBuilder) (table : TableArg)
    (state : Nat) : Except ParseError (QueryBuilder × Nat) :=
  let fresh := createQueryId state
  match parseTableExpressionOrList s.parseContext table with
  | Except.error e => Except.error e
  | Except.ok items =>
    Except.ok
      ({ queryId := fresh.1
         executor := s.props.executor
         adapter := s.props.adapter
         queryNode := { fromItems := items } }, fresh.2)

/-- From sub-query-builder.ts lines 85 to 92: withSchema returns a new
SubQueryBuilder whose executor gains a WithSchemaPlugin at the front of its
chain; every other property is spread unchanged. -/
def SubQueryBuilder.withSchema (s : SubQueryBuilder) (schema : String) :
    SubQueryBuilder :=
  SubQueryBuilder.mk
    { s.props with
      executor := s.props.executor.withPluginAtFront
        (KyselyPlugin.withSchemaPlugin { schema := schema }) }

/-- The outcome of awaiting a value: it either resolves or rejects with a
diagnostic message. -/
inductive AwaitOutcome (α : Type) where
  | resolved (value : α)
  | rejected (message : String)
deriving DecidableEq, Repr

/-- The diagnostic message installed by the preventAwait call of
join-builder.ts lines 188 to 191. -/
def joinBuilderPreventAwaitMessage : String :=
  "don't await JoinBuilder instances. They are never executed directly and are always just a part of a query."

/-- Modelled from the spec: util/prevent-await.ts is not under src.  The
preventAwait guard makes awaiting an instance of the guarded class fail fast
with the diagnostic message.  The source installs the guard on JoinBuilder
(join-builder.ts line 188), so awaiting a JoinBuilder rejects. -/
def awaitJoinBuilder (b : JoinBuilder) : AwaitOutcome JoinBuilder :=
  match b with
  | _ => AwaitOutcome.rejected joinBuilderPreventAwaitMessage

/-- Modelled from the spec: util/prevent-await.ts is not under src.  No
preventAwait call is made on SubQueryBuilder anywhere in
sub-query-builder.ts, so a SubQueryBuilder is an ordinary non-thenable
object and awaiting it resolves to the object itself. -/
def awaitSubQueryBuilder (s : SubQueryBuilder) :
    AwaitOutcome SubQueryBuilder :=
  AwaitOutcome.resolved s

/-- Number of constructors of an on-clause fragment, used to observe that
the clone operations strictly grow the clause. -/
def OnNode.size : OnNode → Nat
  | OnNode.cmp _ _ _ => 1
  | OnNode.raw _ => 1
  | OnNode.exist _ => 1
  | OnNode.notExist _ => 1
  | OnNode.and l r => l.size + r.size + 1
  | OnNode.or l r => l.size + r.size + 1

/-- Size of an optional on-clause. -/
def clauseSize : Option OnNode → Nat
  | none => 0
  | some c => c.size

/-- A concrete join node with no on-clause, used as an evaluation input. -/
def jnExample : JoinNode :=
  { joinType := "InnerJoin", table := "person", «on» := none }

/-- A concrete join builder wrapping jnExample. -/
def jbExample : JoinBuilder :=
  JoinBuilder.mk (JoinBuilderProps.mk jnExample)

/-- The builder obtained from jbExample by one successful on call. -/
def jbExampleOn : JoinBuilder :=
  JoinBuilder.mk (JoinBuilderProps.mk
    { jnExample with «on» := some (OnNode.cmp (Operand.col "a") "=" (Operand.lit "1")) })

/-- A concrete subquery builder with an empty plugin chain. -/
def sqExample : SubQueryBuilder :=
  SubQueryBuilder.mk (SubQueryBuilderProps.mk (NoopQueryExecutor.mk []) (DialectAdapter.mk true))

/-- A concrete table argument. -/
def tableExample : TableArg :=
  TableArg.one (TableValue.table "pet")

lemma OnNode.size_pos (n : OnNode) : 0 < n.size := by
  cases n <;> simp [OnNode.size]

lemma clauseSize_cloneWithOn (node : JoinNode) (f : OnNode) :
    clauseSize node.on < clauseSize (node.cloneWithOn f).on := by
  obtain ⟨jt, tbl, o⟩ := node
  cases o with
  | none => simpa [JoinNode.cloneWithOn, clauseSize] using f.size_pos
  | some c => simp only [JoinNode.cloneWithOn, clauseSize, OnNode.size]; omega

lemma clauseSize_cloneWithOrOn (node : JoinNode) (f : OnNode) :
    clauseSize node.on < clauseSize (node.cloneWithOrOn f).on := by
  obtain ⟨jt, tbl, o⟩ := node
  cases o with
  | none => simpa [JoinNode.cloneWithOrOn, clauseSize] using f.size_pos
  | some c => simp only [JoinNode.cloneWithOrOn, clauseSize, OnNode.size]; omega

lemma cloneWithOn_ne (node : JoinNode) (f : OnNode) :
    node.cloneWithOn f ≠ node := by
  intro h
  have hs := clauseSize_cloneWithOn node f
  rw [h] at hs
  exact lt_irrefl _ hs

lemma cloneWithOrOn_ne (node : JoinNode) (f : OnNode) :
    node.cloneWithOrOn f ≠ node := by
  intro h
  have hs := clauseSize_cloneWithOrOn node f
  rw [h] at hs
  exact lt_irrefl _ hs

lemma withSchema_ne (s : SubQueryBuilder) (schema : String) :
    s.withSchema schema ≠ s := by
  intro h
  have hl := congrArg (fun x => x.props.executor.plugins.length) h
  simp [SubQueryBuilder.withSchema, NoopQueryExecutor.withPluginAtFront] at hl

lemma except_map_ok {α β ε : Type} {p : Except ε α} {g : α → β} {y : β}
    (h : p.map g = Except.ok y) : ∃ x, p = Except.ok x ∧ y = g x := by
  cases p with
  | error e => simp [Except.map] at h
  | ok x => exact ⟨x, rfl, by simpa [Except.map] using h.symm⟩

lemma subQuery_eq (s : SubQueryBuilder) (t : TableArg) (n : Nat) :
    s.subQuery t n =
      match parseTableExpressionOrList (createParseContext s.props.adapter) t with
      | Except.error e => Except.error e
      | Except.ok items =>
        Except.ok
          (QueryBuilder.mk (createQueryId n).1 s.props.executor s.props.adapter
            (SelectQueryNode.mk items), (createQueryId n).2) := rfl

lemma subQuery_ok_spec (s : SubQueryBuilder) (t : TableArg) (n : Nat)
    (qb : QueryBuilder) (n₁ : Nat) (h : s.subQuery t n = Except.ok (qb, n₁)) :
    qb.queryId = (createQueryId n).1 ∧
    n₁ = (createQueryId n).2 ∧
    qb.executor = s.props.executor ∧
    qb.adapter = s.props.adapter ∧
    ∃ items, parseTableExpressionOrList (createParseContext s.props.adapter) t =
        Except.ok items ∧
      qb.queryNode = SelectQueryNode.mk items := by
  unfold SubQueryBuilder.subQuery at h
  cases hp : parseTableExpressionOrList s.parseContext t with
  | error e => rw [hp] at h; exact absurd h (by simp)
  | ok items =>
    rw [hp] at h
    simp only [Except.ok.injEq, Prod.mk.injEq] at h
    obtain ⟨hqb, hn⟩ := h
    subst hqb
    exact ⟨rfl, hn.symm, rfl, rfl, items, hp, rfl⟩

/-- Claim C1: every public builder method returns a new builder instance and
leaves the receiver observably unchanged.  Each successful on-family call and
every total method yields a builder whose operation node differs from the
receiver's, the receiver's toOperationNode still returns its own join node,
withSchema returns a distinct builder, and a subQuery call on the original
SubQueryBuilder carries the original executor, unaffected by any withSchema
done on a derived builder. -/
theorem claim1_immutability :
    (∀ (b : JoinBuilder) lhs op rhs b₁, b.on lhs op rhs = Except.ok b₁ →
      b₁.toOperationNode ≠ b.toOperationNode ∧ b.toOperationNode = b.props.joinNode) ∧
    (∀ (b : JoinBuilder) lhs op rhs b₁, b.orOn lhs op rhs = Except.ok b₁ →
      b₁.toOperationNode ≠ b.toOperationNode) ∧
    (∀ (b : JoinBuilder) lhs op rhs b₁, b.onRef lhs op rhs = Except.ok b₁ →
      b₁.toOperationNode ≠ b.toOperationNode) ∧
    (∀ (b : JoinBuilder) lhs op rhs b₁, b.orOnRef lhs op rhs = Except.ok b₁ →
      b₁.toOperationNode ≠ b.toOperationNode) ∧
    (∀ (b : JoinBuilder) arg,
      (b.onExists arg).toOperationNode ≠ b.toOperationNode ∧
      (b.onNotExists arg).toOperationNode ≠ b.toOperationNode ∧
      (b.orOnExists arg).toOperationNode ≠ b.toOperationNode ∧
      (b.orOnNotExists arg).toOperationNode ≠ b.toOperationNode) ∧
    (∀ b : JoinBuilder, (JoinBuilder.onTrue b).toOperationNode ≠ b.toOperationNode) ∧
    (∀ (s : SubQueryBuilder) schema, s.withSchema schema ≠ s) ∧
    (∀ (s : SubQueryBuilder) t n qb n₁, s.subQuery t n = Except.ok (qb, n₁) →
      qb.executor = s.props.executor ∧ qb.adapter = s.props.adapter) := by
  refine ⟨?_, ?_, ?_, ?_, ?_, ?_, ?_, ?_⟩
  · intro b lhs op rhs b₁ h
    unfold JoinBuilder.on at h
    obtain ⟨f, hp, hb⟩ := except_map_ok h
    subst hb
    exact ⟨by simpa [JoinBuilder.toOperationNode] using cloneWithOn_ne b.props.joinNode f, rfl⟩
  · intro b lhs op rhs b₁ h
    unfold JoinBuilder.orOn at h
    obtain ⟨f, hp, hb⟩ := except_map_ok h
    subst hb
    simpa [JoinBuilder.toOperationNode] using cloneWithOrOn_ne b.props.joinNode f
  · intro b lhs op rhs b₁ h
    unfold JoinBuilder.onRef at h
    obtain ⟨f, hp, hb⟩ := except_map_ok h
    subst hb
    simpa [JoinBuilder.toOperationNode] using cloneWithOn_ne b.props.joinNode f
  · intro b lhs op rhs b₁ h
    unfold JoinBuilder.orOnRef at h
    obtain ⟨f, hp, hb⟩ := except_map_ok h
    subst hb
    simpa [JoinBuilder.toOperationNode] using cloneWithOrOn_ne b.props.joinNode f
  · intro b arg
    refine ⟨?_, ?_, ?_, ?_⟩ <;>
      simp only [JoinBuilder.onExists, JoinBuilder.onNotExists, JoinBuilder.orOnExists,
        JoinBuilder.orOnNotExists, JoinBuilder.toOperationNode]
    · exact cloneWithOn_ne b.props.joinNode (parseExists arg)
    · exact cloneWithOn_ne b.props.joinNode (parseNotExists arg)
    · exact cloneWithOrOn_ne b.props.joinNode (parseExists arg)
    · exact cloneWithOrOn_ne b.props.joinNode (parseNotExists arg)
  · intro b
    simpa [JoinBuilder.onTrue, JoinBuilder.toOperationNode] using
      cloneWithOn_ne b.props.joinNode (RawNode.createWithSql "true")
  · exact withSchema_ne
  · intro s t n qb n₁ h
    unfold SubQueryBuilder.subQuery at h
    cases hp : parseTableExpressionOrList s.parseContext t with
    | error e => rw [hp] at h; exact absurd h (by simp)
    | ok items =>
      rw [hp] at h
      simp only [Except.ok.injEq, Prod.mk.injEq] at h
      obtain ⟨hqb, -⟩ := h
      subst hqb
      exact ⟨rfl, rfl⟩

/-- Witness for claim C1 at concrete inputs: a successful on call on a
concrete builder returns a distinct builder, and a concrete subQuery call
keeps the original executor and adapter. -/
theorem claim1_immutability_witness :
    (jbExample.on (Operand.col "a") "=" (Operand.lit "1") = Except.ok jbExampleOn ∧
      jbExampleOn.toOperationNode ≠ jbExample.toOperationNode) ∧
    (sqExample.subQuery tableExample 0 =
      Except.ok ({ queryId := 0, executor := sqExample.props.executor,
                   adapter := sqExample.props.adapter,
                   queryNode := SelectQueryNode.mk [TableExpressionNode.table "pet"] }, 1) ∧
      ({ queryId := 0, executor := sqExample.props.executor,
         adapter := sqExample.props.adapter,
         queryNode := SelectQueryNode.mk [TableExpressionNode.table "pet"] } :
           QueryBuilder).executor = sqExample.props.executor) :=
  ⟨⟨by decide,
    (claim1_immutability.1 jbExample (Operand.col "a") "=" (Operand.lit "1") jbExampleOn
      (by decide)).1⟩,
   ⟨by decide,
    (claim1_immutability.2.2.2.2.2.2.2 sqExample tableExample 0 _ 1 (by decide)).1⟩⟩

/-- Claim C2: chains of on calls accumulate a left-associated AND-tree and
an orOn call wraps the entire accumulated clause in an OR at that point.
Starting from a join node with no on-clause, the chain
on c1, on c2, orOn c3, on c4 yields the WHERE-analogue shape
(((c1 AND c2) OR c3) AND c4); a two-step on then orOn yields
OR(cmp, cmp) and a subsequent on yields AND(OR, cmp); orOn always wraps the
whole existing clause; mixed on, onRef, onTrue chains stay left-associated
AND-trees. -/
theorem claim2_and_or_tree_shape :
    (∀ (jt tbl : String) (a b c d e f g h : Operand),
      ((do
        let b₁ ← (JoinBuilder.mk (JoinBuilderProps.mk (JoinNode.mk jt tbl none))).on a "=" b
        let b₂ ← b₁.on c "=" d
        let b₃ ← b₂.orOn e "=" f
        b₃.on g "=" h) : Except ParseError JoinBuilder).map JoinBuilder.toOperationNode =
      Except.ok (JoinNode.mk jt tbl (some (OnNode.and
        (OnNode.or
          (OnNode.and (OnNode.cmp a "=" b) (OnNode.cmp c "=" d))
          (OnNode.cmp e "=" f))
        (OnNode.cmp g "=" h))))) ∧
    (∀ (jt tbl : String) (a b c d e f : Operand),
      ((do
        let b₁ ← (JoinBuilder.mk (JoinBuilderProps.mk (JoinNode.mk jt tbl none))).on a "=" b
        b₁.orOn c "=" d) : Except ParseError JoinBuilder).map JoinBuilder.toOperationNode =
      Except.ok (JoinNode.mk jt tbl (some
        (OnNode.or (OnNode.cmp a "=" b) (OnNode.cmp c "=" d)))) ∧
      ((do
        let b₁ ← (JoinBuilder.mk (JoinBuilderProps.mk (JoinNode.mk jt tbl none))).on a "=" b
        let b₂ ← b₁.orOn c "=" d
        b₂.on e "=" f) : Except ParseError JoinBuilder).map JoinBuilder.toOperationNode =
      Except.ok (JoinNode.mk jt tbl (some (OnNode.and
        (OnNode.or (OnNode.cmp a "=" b) (OnNode.cmp c "=" d))
        (OnNode.cmp e "=" f))))) ∧
    (∀ (jt tbl : String) (clause : OnNode) (l r : Operand),
      (JoinBuilder.mk (JoinBuilderProps.mk (JoinNode.mk jt tbl (some clause)))).orOn l "=" r =
      Except.ok (JoinBuilder.mk (JoinBuilderProps.mk (JoinNode.mk jt tbl
        (some (OnNode.or clause (OnNode.cmp l "=" r))))))) ∧
    (∀ (jt tbl a b c d : String),
      ((do
        let b₁ ← (JoinBuilder.mk (JoinBuilderProps.mk (JoinNode.mk jt tbl none))).on
          (Operand.col a) "=" (Operand.col b)
        let b₂ ← b₁.onRef (Operand.col c) "=" (Operand.col d)
        pure b₂.onTrue) : Except ParseError JoinBuilder).map JoinBuilder.toOperationNode =
      Except.ok (JoinNode.mk jt tbl (some (OnNode.and
        (OnNode.and
          (OnNode.cmp (Operand.col a) "=" (Operand.col b))
          (OnNode.cmp (Operand.col c) "=" (Operand.col d)))
        (OnNode.raw "true"))))) := by
  refine ⟨?_, ?_, ?_, ?_⟩
  · intro jt tbl a b c d e f g h
    rfl
  · intro jt tbl a b c d e f
    exact ⟨rfl, rfl⟩
  · intro jt tbl clause l r
    rfl
  · intro jt tbl a b c d
    rfl

/-- Claim C3: the deprecated methods preserve the conjunction/disjunction
distinction exactly.  orOn shares parseOn with on but extends via
cloneWithOrOn; orOnRef shares parseReferentialComparison with onRef but
extends via cloneWithOrOn; onExists and onNotExists wrap the predicate with
parseExists and parseNotExists and extend via cloneWithOn, while orOnExists
and orOnNotExists extend via cloneWithOrOn; and on an existing clause,
cloneWithOn conjuncts while cloneWithOrOn disjuncts. -/
theorem claim3_deprecated_semantics :
    (∀ (b : JoinBuilder) lhs op rhs f, parseOn lhs op rhs = Except.ok f →
      b.on lhs op rhs =
        Except.ok (JoinBuilder.mk (JoinBuilderProps.mk (b.props.joinNode.cloneWithOn f))) ∧
      b.orOn lhs op rhs =
        Except.ok (JoinBuilder.mk (JoinBuilderProps.mk (b.props.joinNode.cloneWithOrOn f)))) ∧
    (∀ (b : JoinBuilder) lhs op rhs f, parseReferentialComparison lhs op rhs = Except.ok f →
      b.onRef lhs op rhs =
        Except.ok (JoinBuilder.mk (JoinBuilderProps.mk (b.props.joinNode.cloneWithOn f))) ∧
      b.orOnRef lhs op rhs =
        Except.ok (JoinBuilder.mk (JoinBuilderProps.mk (b.props.joinNode.cloneWithOrOn f)))) ∧
    (∀ (b : JoinBuilder) arg,
      b.onExists arg =
        JoinBuilder.mk (JoinBuilderProps.mk (b.props.joinNode.cloneWithOn (parseExists arg))) ∧
      b.onNotExists arg =
        JoinBuilder.mk (JoinBuilderProps.mk (b.props.joinNode.cloneWithOn (parseNotExists arg))) ∧
      b.orOnExists arg =
        JoinBuilder.mk (JoinBuilderProps.mk (b.props.joinNode.cloneWithOrOn (parseExists arg))) ∧
      b.orOnNotExists arg =
        JoinBuilder.mk (JoinBuilderProps.mk (b.props.joinNode.cloneWithOrOn (parseNotExists arg)))) ∧
    (∀ (jt tbl : String) (clause f : OnNode),
      (JoinNode.mk jt tbl (some clause)).cloneWithOn f =
        JoinNode.mk jt tbl (some (OnNode.and clause f)) ∧
      (JoinNode.mk jt tbl (some clause)).cloneWithOrOn f =
        JoinNode.mk jt tbl (some (OnNode.or clause f))) := by
  refine ⟨?_, ?_, ?_, ?_⟩
  · intro b lhs op rhs f hp
    constructor <;> simp [JoinBuilder.on, JoinBuilder.orOn, hp, Except.map]
  · intro b lhs op rhs f hp
    constructor <;> simp [JoinBuilder.onRef, JoinBuilder.orOnRef, hp, Except.map]
  · intro b arg
    exact ⟨rfl, rfl, rfl, rfl⟩
  · intro jt tbl clause f
    exact ⟨rfl, rfl⟩

/-- Witness for claim C3 at concrete inputs: a concrete comparison and a
concrete referential comparison parse successfully, and the deprecated
disjunctive methods produce the cloneWithOrOn extension there. -/
theorem claim3_deprecated_semantics_witness :
    jbExample.orOn (Operand.col "a") "=" (Operand.lit "1") =
      Except.ok (JoinBuilder.mk (JoinBuilderProps.mk
        (jbExample.props.joinNode.cloneWithOrOn
          (OnNode.cmp (Operand.col "a") "=" (Operand.lit "1"))))) ∧
    jbExample.orOnRef (Operand.col "a") "=" (Operand.col "b") =
      Except.ok (JoinBuilder.mk (JoinBuilderProps.mk
        (jbExample.props.joinNode.cloneWithOrOn
          (OnNode.cmp (Operand.col "a") "=" (Operand.col "b"))))) :=
  ⟨(claim3_deprecated_semantics.1 jbExample (Operand.col "a") "=" (Operand.lit "1")
      (OnNode.cmp (Operand.col "a") "=" (Operand.lit "1")) (by decide)).2,
   (claim3_deprecated_semantics.2.1 jbExample (Operand.col "a") "=" (Operand.col "b")
      (OnNode.cmp (Operand.col "a") "=" (Operand.col "b")) (by decide)).2⟩

/-- Claim C4: every successful subQuery call returns a query builder whose
query identifier is freshly obtained from createQueryId at that call, whose
executor and adapter are the objects stored in the SubQueryBuilder's
properties record, and whose query node is a select-query node over the
parsed table expressions; and under the global-uniqueness contract of
createQueryId, two subqueries built in sequence from the same or different
SubQueryBuilders never receive the same query identifier. -/
theorem claim4_subquery_construction :
    (∀ (s : SubQueryBuilder) t n qb n₁, s.subQuery t n = Except.ok (qb, n₁) →
      qb.queryId = (createQueryId n).1 ∧
      n₁ = (createQueryId n).2 ∧
      qb.executor = s.props.executor ∧
      qb.adapter = s.props.adapter ∧
      ∃ items, parseTableExpressionOrList (createParseContext s.props.adapter) t =
          Except.ok items ∧
        qb.queryNode = SelectQueryNode.mk items) ∧
    (∀ (s₁ s₂ : SubQueryBuilder) t₁ t₂ n qb₁ n₁ qb₂ n₂,
      s₁.subQuery t₁ n = Except.ok (qb₁, n₁) →
      s₂.subQuery t₂ n₁ = Except.ok (qb₂, n₂) →
      qb₁.queryId ≠ qb₂.queryId) := by
  refine ⟨subQuery_ok_spec, ?_⟩
  intro s₁ s₂ t₁ t₂ n qb₁ n₁ qb₂ n₂ h₁ h₂
  obtain ⟨hid₁, hn₁, -⟩ := subQuery_ok_spec s₁ t₁ n qb₁ n₁ h₁
  obtain ⟨hid₂, -⟩ := subQuery_ok_spec s₂ t₂ n₁ qb₂ n₂ h₂
  rw [hid₁, hid₂, hn₁]
  simp [createQueryId]

/-- Witness for claim C4 at concrete inputs: a concrete subQuery call at
identifier state 0 yields query identifier 0 and next state 1, and two
sequential concrete calls receive the distinct identifiers 0 and 1. -/
theorem claim4_subquery_construction_witness :
    ((({ queryId := 0, executor := sqExample.props.executor,
         adapter := sqExample.props.adapter,
         queryNode := SelectQueryNode.mk [TableExpressionNode.table "pet"] } :
           QueryBuilder).queryId = (createQueryId 0).1) ∧
      (({ queryId := 0, executor := sqExample.props.executor,
          adapter := sqExample.props.adapter,
          queryNode := SelectQueryNode.mk [TableExpressionNode.table "pet"] } :
            QueryBuilder).executor = sqExample.props.executor)) ∧
    (({ queryId := 0, executor := sqExample.props.executor,
        adapter := sqExample.props.adapter,
        queryNode := SelectQueryNode.mk [TableExpressionNode.table "pet"] } :
          QueryBuilder).queryId ≠
      ({ queryId := 1, executor := sqExample.props.executor,
         adapter := sqExample.props.adapter,
         queryNode := SelectQueryNode.mk [TableExpressionNode.table "pet"] } :
           QueryBuilder).queryId) :=
  ⟨⟨(claim4_subquery_construction.1 sqExample tableExample 0 _ 1 (by decide)).1,
    (claim4_subquery_construction.1 sqExample tableExample 0 _ 1 (by decide)).2.2.1⟩,
   claim4_subquery_construction.2 sqExample sqExample tableExample tableExample 0 _ 1 _ 2
     (by decide) (by decide)⟩

/-- Claim C5: a parser failure surfaces unchanged at the offending call.  An
on call with an operator outside the supported vocabulary fails with the
InvalidOperator error for that operator, no new builder is returned, the
original builder's operation node is unchanged, and the original builder
remains usable: a subsequent well-formed on call on it still succeeds with
the expected extension of its unchanged node. -/
theorem claim5_error_fail_fast :
    ∀ (b : JoinBuilder) (lhs rhs : Operand) (op : String),
      op ∉ COMPARISON_OPERATORS →
      b.on lhs op rhs = Except.error (ParseError.invalidOperator op) ∧
      (∀ b₁, b.on lhs op rhs ≠ Except.ok b₁) ∧
      b.toOperationNode = b.props.joinNode ∧
      (∀ lhs₂ rhs₂, b.on lhs₂ "=" rhs₂ =
        Except.ok (JoinBuilder.mk (JoinBuilderProps.mk
          (b.props.joinNode.cloneWithOn (OnNode.cmp lhs₂ "=" rhs₂))))) := by
  intro b lhs rhs op hop
  have herr : b.on lhs op rhs = Except.error (ParseError.invalidOperator op) := by
    simp [JoinBuilder.on, parseOn, hop, Except.map]
  refine ⟨herr, ?_, rfl, ?_⟩
  · intro b₁ hok
    rw [herr] at hok
    exact Except.noConfusion hok
  · intro lhs₂ rhs₂
    simp [JoinBuilder.on, parseOn, COMPARISON_OPERATORS, Except.map]

/-- Witness for claim C5 at a concrete input: on with the operator
not_an_operator fails with the operator-validation error on the concrete
builder, and the same builder still accepts a valid on call afterwards. -/
theorem claim5_error_fail_fast_witness :
    jbExample.on (Operand.col "a") "not_an_operator" (Operand.lit "1") =
      Except.error (ParseError.invalidOperator "not_an_operator") ∧
    jbExample.on (Operand.col "a") "=" (Operand.lit "1") =
      Except.ok (JoinBuilder.mk (JoinBuilderProps.mk
        (jbExample.props.joinNode.cloneWithOn
          (OnNode.cmp (Operand.col "a") "=" (Operand.lit "1"))))) :=
  ⟨(claim5_error_fail_fast jbExample (Operand.col "a") (Operand.lit "1") "not_an_operator"
      (by decide)).1,
   (claim5_error_fail_fast jbExample (Operand.col "a") (Operand.lit "1") "not_an_operator"
      (by decide)).2.2.2 (Operand.col "a") (Operand.lit "1")⟩

/-- Claim C6: every onTrue call extends the on clause conjunctively via
cloneWithOn with a raw true predicate, and from an empty on-clause,
onTrue followed by onTrue produces AND(true, true), structurally distinct
from a single raw true predicate. -/
theorem claim6_onTrue :
    (∀ b : JoinBuilder, (JoinBuilder.onTrue b).props.joinNode =
      b.props.joinNode.cloneWithOn (RawNode.createWithSql "true")) ∧
    (∀ b : JoinBuilder, b.props.joinNode.on = none →
      (JoinBuilder.onTrue (JoinBuilder.onTrue b)).toOperationNode.on =
        some (OnNode.and (OnNode.raw "true") (OnNode.raw "true")) ∧
      (JoinBuilder.onTrue (JoinBuilder.onTrue b)).toOperationNode.on ≠
        some (OnNode.raw "true") ∧
      (JoinBuilder.onTrue b).toOperationNode.on = some (OnNode.raw "true")) := by
  refine ⟨fun b => rfl, ?_⟩
  intro b hnone
  obtain ⟨⟨jt, tbl, o⟩⟩ := b
  simp only [JoinBuilderProps.joinNode] at hnone
  subst hnone
  refine ⟨rfl, ?_, rfl⟩
  simp [JoinBuilder.onTrue, JoinBuilder.toOperationNode, JoinNode.cloneWithOn,
    RawNode.createWithSql]

/-- Witness for claim C6 at a concrete input: the concrete builder has no
on-clause, and its double onTrue yields AND(true, true). -/
theorem claim6_onTrue_witness :
    jbExample.props.joinNode.on = none ∧
    (JoinBuilder.onTrue (JoinBuilder.onTrue jbExample)).toOperationNode.on =
      some (OnNode.and (OnNode.raw "true") (OnNode.raw "true")) :=
  ⟨by decide, ((claim6_onTrue.2 jbExample (by decide)).1)⟩

/-- Claim C7: the parse context passed to the table-expression parser is
computed on demand from the builder's current adapter at each subQuery call.
The parseContext getter always equals createParseContext of the current
adapter, also on a builder derived through withSchema (whose adapter is the
original's); every successful subQuery call parsed its argument under the
context derived from the builder's own adapter at that call; and a builder
derived through withSchema parses identically to the original, so the query
nodes agree. -/
theorem claim7_fresh_parse_context :
    (∀ s : SubQueryBuilder, s.parseContext = createParseContext s.props.adapter) ∧
    (∀ (s : SubQueryBuilder) schema,
      (s.withSchema schema).parseContext = createParseContext s.props.adapter) ∧
    (∀ (s : SubQueryBuilder) t n qb n₁, s.subQuery t n = Except.ok (qb, n₁) →
      ∃ items, parseTableExpressionOrList (createParseContext s.props.adapter) t =
          Except.ok items ∧
        qb.queryNode = SelectQueryNode.mk items) ∧
    (∀ (s : SubQueryBuilder) schema t n,
      ((s.withSchema schema).subQuery t n).map (fun p => p.1.queryNode) =
        (s.subQuery t n).map (fun p => p.1.queryNode)) := by
  refine ⟨fun s => rfl, fun s schema => rfl, ?_, ?_⟩
  · intro s t n qb n₁ h
    exact (subQuery_ok_spec s t n qb n₁ h).2.2.2.2
  · intro s schema t n
    rw [subQuery_eq (s.withSchema schema) t n, subQuery_eq s t n]
    have hadapter : (s.withSchema schema).props.adapter = s.props.adapter := rfl
    rw [hadapter]
    cases parseTableExpressionOrList (createParseContext s.props.adapter) t <;> rfl

/-- Witness for claim C7 at a concrete input: the concrete subQuery call at
state 0 parsed its table under the context derived from the concrete
builder's adapter. -/
theorem claim7_fresh_parse_context_witness :
    parseTableExpressionOrList (createParseContext sqExample.props.adapter) tableExample =
      Except.ok [TableExpressionNode.table "pet"] ∧
    (SelectQueryNode.mk [TableExpressionNode.table "pet"] =
      SelectQueryNode.mk [TableExpressionNode.table "pet"]) := by
  obtain ⟨items, hparse, hnode⟩ :=
    claim7_fresh_parse_context.2.2.1 sqExample tableExample 0
      ({ queryId := 0, executor := sqExample.props.executor,
         adapter := sqExample.props.adapter,
         queryNode := SelectQueryNode.mk [TableExpressionNode.table "pet"] }) 1 (by decide)
  have hitems : items = [TableExpressionNode.table "pet"] := by
    simpa using hnode.symm
  exact ⟨by rw [← hitems]; exact hparse, rfl⟩

/-- Counterexample to claim C8 as stated: the claim quantifies two-run
determinism over all public operations including subQuery, whose result
includes the query identifier.  Under the global-uniqueness contract of
createQueryId, the second run of the very same call sqExample.subQuery
tableExample draws the next fresh identifier, so the two runs are not
observably identical: the first yields query identifier 0, the second 1. -/
theorem claim8_counterexample :
    (sqExample.subQuery tableExample 0).map (fun p => p.1.queryId) = Except.ok 0 ∧
    (sqExample.subQuery tableExample 1).map (fun p => p.1.queryId) = Except.ok 1 ∧
    (sqExample.subQuery tableExample 0).map (fun p => p.1) ≠
      (sqExample.subQuery tableExample 1).map (fun p => p.1) := by
  refine ⟨by decide, by decide, by decide⟩

/-- Claim C8 as amended: every builder operation is a deterministic pure
function of the builder, its arguments and the identifier-generation state;
two runs of the same subQuery call in the same process agree on executor,
adapter and query node, and differ exactly in the query identifier, which is
fresh per run under the uniqueness contract of createQueryId. -/
theorem claim8_determinism_amended :
    ∀ (s : SubQueryBuilder) t n qb₁ n₁ qb₂ n₂,
      s.subQuery t n = Except.ok (qb₁, n₁) →
      s.subQuery t n₁ = Except.ok (qb₂, n₂) →
      qb₁.executor = qb₂.executor ∧
      qb₁.adapter = qb₂.adapter ∧
      qb₁.queryNode = qb₂.queryNode ∧
      qb₁.queryId ≠ qb₂.queryId := by
  intro s t n qb₁ n₁ qb₂ n₂ h₁ h₂
  obtain ⟨hid₁, hn₁, hex₁, had₁, items₁, hp₁, hq₁⟩ := subQuery_ok_spec s t n qb₁ n₁ h₁
  obtain ⟨hid₂, hn₂, hex₂, had₂, items₂, hp₂, hq₂⟩ := subQuery_ok_spec s t n₁ qb₂ n₂ h₂
  have hitems : items₁ = items₂ := by
    rw [hp₁] at hp₂
    exact (Except.ok.inj hp₂)
  refine ⟨by rw [hex₁, hex₂], by rw [had₁, had₂], by rw [hq₁, hq₂, hitems], ?_⟩
  rw [hid₁, hid₂, hn₁]
  simp [createQueryId]

/-- Witness for the amended claim C8 at concrete inputs: the two sequential
runs of the concrete subQuery call agree on executor, adapter and query node
and receive distinct query identifiers. -/
theorem claim8_determinism_amended_witness :
    ({ queryId := 0, executor := sqExample.props.executor,
       adapter := sqExample.props.adapter,
       queryNode := SelectQueryNode.mk [TableExpressionNode.table "pet"] } :
         QueryBuilder).queryNode =
      ({ queryId := 1, executor := sqExample.props.executor,
         adapter := sqExample.props.adapter,
         queryNode := SelectQueryNode.mk [TableExpressionNode.table "pet"] } :
           QueryBuilder).queryNode ∧
    ({ queryId := 0, executor := sqExample.props.executor,
       adapter := sqExample.props.adapter,
       queryNode := SelectQueryNode.mk [TableExpressionNode.table "pet"] } :
         QueryBuilder).queryId ≠
      ({ queryId := 1, executor := sqExample.props.executor,
         adapter := sqExample.props.adapter,
         queryNode := SelectQueryNode.mk [TableExpressionNode.table "pet"] } :
           QueryBuilder).queryId :=
  ⟨(claim8_determinism_amended sqExample tableExample 0 _ 1 _ 2 (by decide) (by decide)).2.2.1,
   (claim8_determinism_amended sqExample tableExample 0 _ 1 _ 2 (by decide) (by decide)).2.2.2⟩

/-- Counterexample to claim C9 as stated: the claim asserts that awaiting
any builder of this core fails fast, but sub-query-builder.ts contains no
preventAwait call, so a SubQueryBuilder is an ordinary non-thenable object
and awaiting the concrete builder resolves to the builder itself instead of
rejecting with the diagnostic. -/
theorem claim9_counterexample :
    awaitSubQueryBuilder sqExample = AwaitOutcome.resolved sqExample ∧
    awaitSubQueryBuilder sqExample ≠
      AwaitOutcome.rejected joinBuilderPreventAwaitMessage := by
  exact ⟨rfl, by simp [awaitSubQueryBuilder]⟩

/-- Claim C9 as amended: awaiting a JoinBuilder fails fast with the
diagnostic installed by the preventAwait call of join-builder.ts, while a
SubQueryBuilder, on which no guard is installed, resolves as a plain value. -/
theorem claim9_await_amended :
    ∀ (b : JoinBuilder) (s : SubQueryBuilder),
      awaitJoinBuilder b = AwaitOutcome.rejected joinBuilderPreventAwaitMessage ∧
      awaitSubQueryBuilder s = AwaitOutcome.resolved s := by
  intro b s
  exact ⟨rfl, rfl⟩

/-- Claim C10: withSchema only changes the executor.  The derived builder's
adapter is the original's adapter, its executor is the original executor
with a WithSchemaPlugin installed at the front of the chain, and therefore
the parse context derived for subsequent subQuery calls on the derived
builder equals the one derived from the original adapter. -/
theorem claim10_withSchema_frame :
    ∀ (s : SubQueryBuilder) (schema : String),
      (s.withSchema schema).props.adapter = s.props.adapter ∧
      (s.withSchema schema).props.executor =
        s.props.executor.withPluginAtFront
          (KyselyPlugin.withSchemaPlugin (WithSchemaPlugin.mk schema)) ∧
      (s.withSchema schema).parseContext = createParseContext s.props.adapter := by
  intro s schema
  exact ⟨rfl, rfl, rfl⟩

end Kysely
